import Mathlib

/-
Verification development for `jenkins-build` (src/main.rs).

The program triggers Jenkins jobs concurrently, polls each until terminal
state, and redraws a fixed-height status table.  This file is a shallow
embedding of `src/main.rs`: every Rust function relevant to the claims is
translated into an executable Lean definition; network responses, the
async scheduler and terminal output are made explicit parameters or
return values.

Modelling conventions
 - `anyhow::Error` values are modelled by the inductive `JErr`, tagging
   each `anyhow!`/`with_context` message with the error kind of the
   specification taxonomy (ConfigErr / NetworkError / ProtocolError /
   TimeoutError).  The `{:?}`-formatted URL fragments of the messages are
   appended with `++` where the URL is available and elided otherwise.
 - Rust panics (out-of-bounds indexing, `Option::unwrap` on `None`) are
   modelled by the `Failure.panic` constructor, distinct from returned
   `Err` values (`Failure.err`).
 - `tokio::time::sleep` is modelled by an explicit clock: each polling
   loop returns, besides its `Result`, the number of sleep+GET round
   trips it performed and the total seconds it slept.
 - The process-global `CONFIG` (`once_cell::Lazy`) is passed explicitly
   as a `Config` argument; `JOB_FILE_CONTENT.split(LINE_ENDING)` is
   passed as a `List String` of lines.
 - `HashMap` is modelled by an association list where `insert` removes
   any previous binding of the key and conses the new one (last insert
   wins, as for `HashMap::insert`), and `remove` filters the key out.
-/

set_option maxHeartbeats 1000000

/-- Error kinds of the per-job `anyhow` errors, tagged with the
specification's taxonomy, carrying the source's message text. -/
inductive JErr where
  | ConfigErr (msg : String)
  | NetworkError (msg : String)
  | ProtocolError (msg : String)
  | TimeoutError (msg : String)
deriving DecidableEq, Repr

/-- `e.to_string()` on an `anyhow::Error`: the displayable message. -/
def JErr.describe : JErr → String
  | .ConfigErr m => m
  | .NetworkError m => m
  | .ProtocolError m => m
  | .TimeoutError m => m

def JErr.isConfig : JErr → Bool
  | .ConfigErr _ => true
  | _ => false

def JErr.isNetwork : JErr → Bool
  | .NetworkError _ => true
  | _ => false

def JErr.isProtocol : JErr → Bool
  | .ProtocolError _ => true
  | _ => false

def JErr.isTimeout : JErr → Bool
  | .TimeoutError _ => true
  | _ => false

/-- A `Result` computation outcome distinguishing returned `Err` values
from Rust panics. -/
inductive Failure where
  | err (e : JErr)
  | panic (msg : String)
deriving DecidableEq, Repr

/-- `failsWith p r` holds when the computation failed with an error kind
satisfying `p`. -/
def failsWith {α : Type} (p : JErr → Bool) : Except JErr α → Bool
  | .error e => p e
  | .ok _ => false

/-- JSON shape `{ "executable": { "url": ... } }` (struct `Executable`). -/
structure Executable where
  url : String
deriving DecidableEq, Repr

/-- JSON page decoded by the first locate poll (struct `JenkinsExecPage`). -/
structure JenkinsExecPage where
  executable : Executable
deriving DecidableEq, Repr

/-- JSON page decoded by the result poll (struct `JenkinsResult`);
`result` is `null` while the build runs and a string once terminal. -/
structure JenkinsResult where
  result : Option String
deriving DecidableEq, Repr

/-- Per-job override entry of an instance's `jobs` table
(struct `JenkinsJobConfig`). -/
structure JenkinsJobConfig where
  build : Option String
  poll_build_result_interval_second : Option Nat
  poll_build_result_counts : Option Nat
  parameters : Option (List (String × String))
deriving DecidableEq, Repr

/-- One configured Jenkins instance (struct `JenkinsInstanceConfig`).
Note: the struct has no instance-level defaults for `build`,
`poll_build_result_interval_second` or `poll_build_result_counts`. -/
structure JenkinsInstanceConfig where
  name : String
  url : String
  user : String
  password : String
  jobs : Option (List (String × JenkinsJobConfig))
deriving DecidableEq, Repr

/-- The `[jenkins]` table of the configuration (struct `JenkinsConfig`). -/
structure JenkinsConfig where
  build : Option String
  poll_build_result_interval_second : Option Nat
  poll_build_result_counts : Option Nat
  instances : List JenkinsInstanceConfig
deriving DecidableEq, Repr

/-- The `[file]` table of the configuration (struct `FileConfig`). -/
structure FileConfig where
  path : String
deriving DecidableEq, Repr

/-- The whole parsed configuration (struct `Config`), the value of the
process-global `CONFIG`, passed explicitly here. -/
structure Config where
  jenkins : JenkinsConfig
  file : FileConfig
deriving DecidableEq, Repr

/-- Fully resolved per-job execution parameters
(struct `_JenkinsJobConfig`). -/
structure _JenkinsJobConfig where
  name : String
  instance_name : String
  build : String
  poll_build_result_interval_second : Nat
  poll_build_result_counts : Nat
  parameters : Option (List (String × String))
deriving DecidableEq, Repr

/-- Instance-level default for `build`.  The source's
`JenkinsInstanceConfig` carries only `name, url, user, password, jobs`:
the configuration format admits no instance-level default for `build`,
so this is `none` for every instance.  (Introduced to state the spec's
claimed instance layer of the resolution fallback.) -/
def JenkinsInstanceConfig.instance_build (_ : JenkinsInstanceConfig) : Option String := none

/-- `JenkinsJobConfig::get_build`: job-level value, else the global
`CONFIG.jenkins.build`, else a configuration error. -/
def JenkinsJobConfig.get_build (self : JenkinsJobConfig) (cfg : Config) : Except JErr String :=
  match self.build with
  | some v => .ok v
  | none =>
    match cfg.jenkins.build with
    | some v => .ok v
    | none => .error (.ConfigErr "Missing job or global `build` configuration")

/-- `JenkinsJobConfig::get_poll_build_result_interval_second`. -/
def JenkinsJobConfig.get_poll_build_result_interval_second (self : JenkinsJobConfig) (cfg : Config) : Except JErr Nat :=
  match self.poll_build_result_interval_second with
  | some v => .ok v
  | none =>
    match cfg.jenkins.poll_build_result_interval_second with
    | some v => .ok v
    | none => .error (.ConfigErr "Missing job or global `poll_build_result_interval_second` configuration")

/-- `JenkinsJobConfig::get_poll_build_result_counts`. -/
def JenkinsJobConfig.get_poll_build_result_counts (self : JenkinsJobConfig) (cfg : Config) : Except JErr Nat :=
  match self.poll_build_result_counts with
  | some v => .ok v
  | none =>
    match cfg.jenkins.poll_build_result_counts with
    | some v => .ok v
    | none => .error (.ConfigErr "Missing job or global `poll_build_result_counts` configuration")

/-- `_JenkinsJobConfig::set_value_from_initial`: fill every field from the
global layer only; the source checks `build`, then `counts`, then
`interval`, each failing with its own message. -/
def _JenkinsJobConfig.set_value_from_initial (self : _JenkinsJobConfig) (cfg : Config) : Except JErr _JenkinsJobConfig :=
  match cfg.jenkins.build with
  | none => .error (.ConfigErr "Missing job or global build configuration")
  | some b =>
    match cfg.jenkins.poll_build_result_counts with
    | none => .error (.ConfigErr "Missing job or global poll_build_result_counts configuration")
    | some c =>
      match cfg.jenkins.poll_build_result_interval_second with
      | none => .error (.ConfigErr "Missing job or global poll_build_result_interval_second configuration")
      | some i =>
        .ok { self with build := b, poll_build_result_counts := c,
                        poll_build_result_interval_second := i, parameters := none }

/-- `_JenkinsJobConfig::set_value_from_another`: fill the fields from a
job-table entry through the `get_*` accessors (which themselves fall back
to the global layer); the source resolves `build`, then `interval`, then
`counts`. -/
def _JenkinsJobConfig.set_value_from_another (self : _JenkinsJobConfig) (cfg : Config) (obj : JenkinsJobConfig) : Except JErr _JenkinsJobConfig :=
  match obj.get_build cfg with
  | .error e => .error e
  | .ok b =>
    match obj.get_poll_build_result_interval_second cfg with
    | .error e => .error e
    | .ok i =>
      match obj.get_poll_build_result_counts cfg with
      | .error e => .error e
      | .ok c =>
        .ok { self with build := b, poll_build_result_interval_second := i,
                        poll_build_result_counts := c, parameters := obj.parameters }

/-- `JenkinsInstanceConfig::validate`: the source writes
`let _ = Url::parse(..).with_context(..)`, discarding the `Result`, so
validation never fails. -/
def JenkinsInstanceConfig.validate (_ : JenkinsInstanceConfig) : Except JErr Unit := .ok ()

/-- The `for instance in &self.jenkins.instances { instance.validate()? }`
loop of `Config::validate`. -/
def validate_instances : List JenkinsInstanceConfig → Except JErr Unit
  | [] => .ok ()
  | i :: rest =>
    match i.validate with
    | .error e => .error e
    | .ok () => validate_instances rest

/-- `Config::validate` iterates instance validation (a no-op, see above). -/
def Config.validate (c : Config) : Except JErr Unit :=
  validate_instances c.jenkins.instances

/-- `HashMap::insert` on an association list: last insert wins. -/
def hm_insert {α : Type} (m : List (String × α)) (k : String) (v : α) : List (String × α) :=
  (k, v) :: m.filter (fun p => p.1 != k)

/-- `HashMap::remove`'s effect on the map (the removed value is read with
`List.lookup` before filtering). -/
def hm_remove {α : Type} (m : List (String × α)) (k : String) : List (String × α) :=
  m.filter (fun p => p.1 != k)

/-- `get_jenkins_clients`: one HTTP client per configured instance, keyed
by instance name.  `HttpClient::new` only builds the transport and cannot
fail in the model, so the client is represented by its
`JenkinsInstanceConfig` (base URL + credentials). -/
def get_jenkins_clients (cfg : Config) : List (String × JenkinsInstanceConfig) :=
  cfg.jenkins.instances.foldl (fun m i => hm_insert m i.name i) []

/-- `get_job_config`: resolve one job against the named instance.
`&CONFIG.jenkins.instances[0]` is read unconditionally as the initial
candidate and panics when the instance list is empty.  The `for` loop
keeps the last instance whose name matches; a name mismatch after the
loop is a configuration error. -/
def get_job_config (cfg : Config) (job : String) (jenkins_instance : String) : Except Failure _JenkinsJobConfig :=
  match cfg.jenkins.instances.head? with
  | none => .error (.panic "index out of bounds: the len is 0 but the index is 0")
  | some first =>
    let jenkins_config :=
      cfg.jenkins.instances.foldl (fun acc i => if i.name = jenkins_instance then i else acc) first
    if jenkins_config.name ≠ jenkins_instance then
      .error (.err (.ConfigErr ("No " ++ jenkins_instance ++ " related jenkins configuration")))
    else
      let job_config : _JenkinsJobConfig :=
        { name := job, instance_name := jenkins_config.name, build := "",
          poll_build_result_interval_second := 0, poll_build_result_counts := 0,
          parameters := none }
      match jenkins_config.jobs with
      | some map =>
        match map.lookup job with
        | some value =>
          match job_config.set_value_from_another cfg value with
          | .ok r => .ok r
          | .error e => .error (.err e)
        | none =>
          match job_config.set_value_from_initial cfg with
          | .ok r => .ok r
          | .error e => .error (.err e)
      | none =>
        match job_config.set_value_from_initial cfg with
        | .ok r => .ok r
        | .error e => .error (.err e)

/-- `str::trim`: strip leading and trailing whitespace.  Modelled on the
string's character list (Lean's own `String.trim` is byte-position based
and does not evaluate by reduction). -/
def rust_trim (s : String) : String :=
  ⟨(((s.data.dropWhile Char.isWhitespace).reverse).dropWhile Char.isWhitespace).reverse⟩

/-- The loop body of `get_all_jobs` over the job-file lines: blank lines
are skipped, `[name]` lines (`starts_with('[') && ends_with(']')`, here
read off the character list) switch the current instance to the text
between the brackets (`&trimmed[1..len-1]`), any other line resolves a
job under the current instance. -/
def get_all_jobs_go (cfg : Config) : List String → String → List _JenkinsJobConfig → Except Failure (List _JenkinsJobConfig)
  | [], _inst, jobs => .ok jobs
  | line :: rest, inst, jobs =>
    let trimmed := rust_trim line
    if trimmed.data.length = 0 then
      get_all_jobs_go cfg rest inst jobs
    else if trimmed.data.head? == some '[' && trimmed.data.getLast? == some ']' then
      get_all_jobs_go cfg rest (String.mk ((trimmed.data.drop 1).dropLast)) jobs
    else
      match get_job_config cfg trimmed inst with
      | .error f => .error f
      | .ok jc => get_all_jobs_go cfg rest inst (jobs ++ [jc])

/-- `get_all_jobs`: reads `&CONFIG.jenkins.instances[0].name`
unconditionally (panics when the instance list is empty) to establish the
default instance, then folds over the job-file lines. -/
def get_all_jobs (cfg : Config) (lines : List String) : Except Failure (List _JenkinsJobConfig) :=
  match cfg.jenkins.instances.head? with
  | none => .error (.panic "index out of bounds: the len is 0 but the index is 0")
  | some inst0 => get_all_jobs_go cfg lines inst0.name []

/-- The trigger POST's observable response: a transport failure, or a
response whose `Location` header may be absent. -/
inductive TriggerResponse where
  | transportError (msg : String)
  | response (location : Option String)
deriving DecidableEq, Repr

/-- One authenticated GET's observable outcome for an expected JSON shape
`T`: transport failure, JSON that fails to decode as `T`, or a decoded
value. -/
inductive GetResponse (T : Type) where
  | transportError (msg : String)
  | decodeError (msg : String)
  | ok (value : T)
deriving DecidableEq, Repr

/-- `HttpClient::job_build`: POST to `{base}/job/{name}/{build}`; on
success extract the `Location` header (the queued-item URL).  Transport
failure is a NetworkError, an absent header a ProtocolError.  `Url::join`
is modelled by string concatenation. -/
def job_build (jenkins : JenkinsInstanceConfig) (job_config : _JenkinsJobConfig) (resp : TriggerResponse) : Except JErr String :=
  let url_str := jenkins.url ++ "/job/" ++ job_config.name ++ "/" ++ job_config.build
  match resp with
  | .transportError m =>
    .error (.NetworkError ("Failed to get to " ++ url_str ++ ": " ++ m))
  | .response none =>
    .error (.ProtocolError ("Failed to get Location in header that respond from posting to " ++ url_str))
  | .response (some location) => .ok location

/-- Loop body of `HttpClient::get_job_status` (the generic bounded poll):
`remaining` is `30 - i` for the source's counter `i` (the entry point
starts at `i = 0`); when it reaches zero the source's `i == 30` check
fails the poll.  Each iteration sleeps 3 seconds, GETs, and retries only
on decode failure.  Returns the `Result` together with the number of
sleep+GET round trips and the total seconds slept. -/
def get_job_status_go {T : Type} (responses : Nat → GetResponse T) : Nat → Nat → Nat → Nat → (Except JErr T) × Nat × Nat
  | 0, _i, rounds, slept =>
    (.error (.TimeoutError "Failed to get necessary field"), rounds, slept)
  | remaining + 1, i, rounds, slept =>
    match responses i with
    | .transportError m => (.error (.NetworkError ("Failed to get: " ++ m)), rounds + 1, slept + 3)
    | .decodeError _ => get_job_status_go responses remaining (i + 1) (rounds + 1) (slept + 3)
    | .ok v => (.ok v, rounds + 1, slept + 3)

/-- `HttpClient::get_job_status`: fixed cap of 30 attempts at a fixed
3-second interval; neither constant is taken from any job configuration. -/
def get_job_status {T : Type} (responses : Nat → GetResponse T) : (Except JErr T) × Nat × Nat :=
  get_job_status_go responses 30 0 0 0

/-- Loop body of `HttpClient::get_job_result`: `remaining` is
`counts - i` for the source's counter `i` (the entry point starts at
`i = 0`); when it reaches zero the source's `i == counts` check fails the
poll with the timeout error.  Each iteration sleeps the configured
interval, GETs, fails on transport or decode errors (both propagate with
`?`), returns as soon as `result` is non-null, and otherwise retries. -/
def get_job_result_go (interval : Nat) (responses : Nat → GetResponse JenkinsResult) : Nat → Nat → Nat → Nat → (Except JErr String) × Nat × Nat
  | 0, _i, rounds, slept =>
    (.error (.TimeoutError "Getting building result timeout"), rounds, slept)
  | remaining + 1, i, rounds, slept =>
    match responses i with
    | .transportError m =>
      (.error (.NetworkError ("Failed to get: " ++ m)), rounds + 1, slept + interval)
    | .decodeError m =>
      (.error (.ProtocolError ("Failed to deserialize json: " ++ m)), rounds + 1, slept + interval)
    | .ok page =>
      match page.result with
      | some result => (.ok result, rounds + 1, slept + interval)
      | none => get_job_result_go interval responses remaining (i + 1) (rounds + 1) (slept + interval)

/-- `HttpClient::get_job_result`: bounded poll using the job's own
configured interval and attempt count. -/
def get_job_result (job_config : _JenkinsJobConfig) (responses : Nat → GetResponse JenkinsResult) : (Except JErr String) × Nat × Nat :=
  get_job_result_go job_config.poll_build_result_interval_second responses
    job_config.poll_build_result_counts 0 0 0

/-- The remote side observed by one job's concurrent unit: its trigger
response and the response streams of its three polling phases (queue
resolution, liveness check of the executable URL, result poll). -/
structure JobEnv where
  trigger : TriggerResponse
  locate : Nat → GetResponse JenkinsExecPage
  live : Nat → GetResponse JenkinsResult
  result : Nat → GetResponse JenkinsResult

/-- The body of the `tokio::spawn`ed async block of `exec`, up to (not
including) `tx.send`: look up the instance's client, trigger, locate the
executable build, check it is queryable, poll for the result.  Every
failure short-circuits with `?`. -/
def run_task (client : Option JenkinsInstanceConfig) (env : JobEnv) (i : _JenkinsJobConfig) : Except JErr String :=
  match client with
  | none =>
    .error (.ConfigErr ("No jenkins instance named " ++ i.instance_name ++ " for job " ++ i.name))
  | some jenkins =>
    match job_build jenkins i env.trigger with
    | .error e => .error e
    | .ok _location =>
      match (get_job_status env.locate).1 with
      | .error e => .error e
      | .ok _page =>
        match (get_job_status env.live).1 with
        | .error e => .error e
        | .ok _ => (get_job_result i env.result).1

/-- The completion event a task pushes onto the channel after (and only
after) its pipeline succeeded: `tx.send((idx, i.name))` — the original
index paired with the job name alone. -/
def completion_event (idx : Nat) (job : _JenkinsJobConfig) : Nat × String :=
  (idx, job.name)

/-- The events that ever reach the channel: one per job whose pipeline
succeeded (a task that fails with `?` returns before `tx.send`), indexed
in spawn order.  The channel delivers them in completion order, i.e. in
an arbitrary permutation of this list. -/
def spawn_events_go (clients : List (String × JenkinsInstanceConfig)) (envs : Nat → JobEnv) : Nat → List _JenkinsJobConfig → List (Nat × String)
  | _idx, [] => []
  | idx, job :: rest =>
    match run_task (clients.lookup job.instance_name) (envs idx) job with
    | .ok _ => completion_event idx job :: spawn_events_go clients envs (idx + 1) rest
    | .error _ => spawn_events_go clients envs (idx + 1) rest

def spawn_events (clients : List (String × JenkinsInstanceConfig)) (envs : Nat → JobEnv) (jobs : List _JenkinsJobConfig) : List (Nat × String) :=
  spawn_events_go clients envs 0 jobs

/-- The `tasks` map built in `exec`'s spawn loop:
`tasks.insert(i.name, tokio::spawn(..))`, keyed by job name alone; the
stored join handle is represented by the task's spawn index. -/
def build_tasks_go (m : List (String × Nat)) : Nat → List _JenkinsJobConfig → List (String × Nat)
  | _idx, [] => m
  | idx, job :: rest => build_tasks_go (hm_insert m job.name idx) (idx + 1) rest

def build_tasks_map (jobs : List _JenkinsJobConfig) : List (String × Nat) :=
  build_tasks_go [] 0 jobs

/-- Awaiting the join handle of the task spawned at index `t` yields that
task's `Result` (the model's tasks do not panic, so `JoinError` does not
arise). -/
def task_result_fn (clients : List (String × JenkinsInstanceConfig)) (envs : Nat → JobEnv) (jobs : List _JenkinsJobConfig) : Nat → Except JErr String :=
  fun t =>
    match jobs.get? t with
    | some job => run_task (clients.lookup job.instance_name) (envs t) job
    | none => .error (.ConfigErr "no spawned task with this index")

/-- One line of `PrintData::print`'s repaint: an empty slot renders the
pending placeholder, a filled slot renders the outcome string. -/
def fmt_line (job : _JenkinsJobConfig) (value : String) : String :=
  if value = "" then job.name ++ " -> 发布中" else job.name ++ " -> " ++ value

/-- The full repaint of `PrintData::print`: one line per slot, in slot
order, each line indexing `self.jobs[idx]` (the `none` branch is
unreachable because `v` is created with `jobs.len()` slots). -/
def render_lines (jobs : List _JenkinsJobConfig) (v : List String) : List String :=
  v.enum.map (fun p =>
    match jobs.get? p.1 with
    | some job => fmt_line job p.2
    | none => "")

/-- The slot-array effect of a sequence of `print(idx, result)` calls:
each call overwrites slot `idx`. -/
def apply_prints (v : List String) : List (Nat × String) → List String
  | [] => v
  | u :: rest => apply_prints (v.set u.1 u.2) rest

/-- The last value written to slot `i` by a sequence of prints. -/
def last_write (i : Nat) : List (Nat × String) → Option String
  | [] => none
  | u :: rest =>
    match last_write i rest with
    | some r => some r
    | none => if u.1 = i then some u.2 else none

/-- `exec`'s consumer loop: for each received `(idx, key)` event, remove
the join handle stored under `key` (`tasks.remove(&key).unwrap()` panics
when the key is gone), await it, and print the result string or the
error's description into slot `idx`. -/
def collect_go (task_results : Nat → Except JErr String) : List (Nat × String) → List (String × Nat) → List String → Except Failure (List String)
  | [], _tasks, slots => .ok slots
  | (idx, key) :: rest, tasks, slots =>
    match tasks.lookup key with
    | none => .error (.panic "called Option.unwrap on a None value")
    | some t =>
      let s :=
        match task_results t with
        | .ok r => r
        | .error e => e.describe
      collect_go task_results rest (hm_remove tasks key) (slots.set idx s)

/-- `exec`: validate the configuration, build the clients, resolve the
job list, spawn one task per job, drain the completion channel, and
repaint.  The terminal side effect is surfaced as the finally rendered
status lines (the initial `p.print(0, String::new())` writes `""` into
slot 0, which is already its initial value).  `arrival` is the channel's
delivery order. -/
def exec_model (cfg : Config) (lines : List String) (envs : Nat → JobEnv) (arrival : List (Nat × String)) : Except Failure (List String) :=
  match cfg.validate with
  | .error e => .error (.err e)
  | .ok () =>
    match get_all_jobs cfg lines with
    | .error f => .error f
    | .ok jobs =>
      match collect_go (task_result_fn (get_jenkins_clients cfg) envs jobs) arrival
          (build_tasks_map jobs) (List.replicate jobs.length "") with
      | .error f => .error f
      | .ok slots => .ok (render_lines jobs slots)

/-- `main`: exit code 0 when `exec` returns `Ok`, `exit(1)` on a returned
`Err`, and the Rust panic exit code 101 when the run panicked. -/
def main_exit_code (cfg : Config) (lines : List String) (envs : Nat → JobEnv) (arrival : List (Nat × String)) : Nat :=
  match exec_model cfg lines envs arrival with
  | .ok _ => 0
  | .error (.err _) => 1
  | .error (.panic _) => 101

/-- The entry of the task map that the consumer's removal by name falls
back on when two spawned jobs share a name: the index recorded last.
Characterises `build_tasks_map` lookups (see `build_tasks_go_lookup`). -/
def last_index_from (k : String) : Nat → List _JenkinsJobConfig → Option Nat
  | _, [] => none
  | idx, j :: rest =>
    match last_index_from k (idx + 1) rest with
    | some r => some r
    | none => if j.name = k then some idx else none

/-- Modelled from the amended claim for the resolution fallback: a
two-layer resolution for the job named `j` on instance `default` — each
required field takes the job entry's value when present, else the global
value, and resolution fails with the configuration error of the first
missing field (`build`, then interval, then counts, as in
`set_value_from_another`). -/
def c2_two_layer (jb : Option String) (ji jc : Option Nat) (ps : Option (List (String × String))) (g_build : Option String) (g_int g_cnt : Option Nat) : Except Failure _JenkinsJobConfig :=
  match jb.orElse (fun _ => g_build) with
  | none => .error (.err (.ConfigErr "Missing job or global `build` configuration"))
  | some b =>
    match ji.orElse (fun _ => g_int) with
    | none => .error (.err (.ConfigErr "Missing job or global `poll_build_result_interval_second` configuration"))
    | some i =>
      match jc.orElse (fun _ => g_cnt) with
      | none => .error (.err (.ConfigErr "Missing job or global `poll_build_result_counts` configuration"))
      | some c =>
        .ok { name := "j", instance_name := "default", build := b,
              poll_build_result_interval_second := i, poll_build_result_counts := c,
              parameters := ps }

/-- Modelled from the amended claim: global-only resolution for a job
named `k` with no entry in the instance's jobs table (the source checks
`build`, then counts, then interval, as in `set_value_from_initial`). -/
def c2_global_only (g_build : Option String) (g_int g_cnt : Option Nat) : Except Failure _JenkinsJobConfig :=
  match g_build with
  | none => .error (.err (.ConfigErr "Missing job or global build configuration"))
  | some b =>
    match g_cnt with
    | none => .error (.err (.ConfigErr "Missing job or global poll_build_result_counts configuration"))
    | some c =>
      match g_int with
      | none => .error (.err (.ConfigErr "Missing job or global poll_build_result_interval_second configuration"))
      | some i =>
        .ok { name := "k", instance_name := "default", build := b,
              poll_build_result_interval_second := i, poll_build_result_counts := c,
              parameters := none }

/-- A configuration with one instance `default` whose jobs table has the
single entry `j`, with the given global-layer values. -/
def c2_mk_cfg (g_build : Option String) (g_int g_cnt : Option Nat) (entry : JenkinsJobConfig) : Config :=
  { jenkins := { build := g_build, poll_build_result_interval_second := g_int,
                 poll_build_result_counts := g_cnt,
                 instances := [{ name := "default", url := "http://jenkins.local",
                                 user := "u", password := "p", jobs := some [("j", entry)] }] },
    file := { path := "jobs.txt" } }

/-- A job-table entry defining no override for any field. -/
def c2_entry : JenkinsJobConfig :=
  { build := none, poll_build_result_interval_second := none,
    poll_build_result_counts := none, parameters := none }

def c2_inst : JenkinsInstanceConfig :=
  { name := "default", url := "http://jenkins.local", user := "u", password := "p",
    jobs := some [("j", c2_entry)] }

/-- Concrete configuration: global layer fully set, job entry empty. -/
def c2_cfg : Config :=
  { jenkins := { build := some "global-build", poll_build_result_interval_second := some 5,
                 poll_build_result_counts := some 7, instances := [c2_inst] },
    file := { path := "jobs.txt" } }

/-- Concrete configuration with nothing set at the global layer. -/
def c2_badcfg : Config := c2_mk_cfg none none none c2_entry

def c1_inst : JenkinsInstanceConfig :=
  { name := "default", url := "http://jenkins.local", user := "u", password := "p",
    jobs := none }

def c1_cfg : Config :=
  { jenkins := { build := some "build", poll_build_result_interval_second := some 1,
                 poll_build_result_counts := some 2, instances := [c1_inst] },
    file := { path := "jobs.txt" } }

def c1_lines : List String := ["jobA"]

/-- The resolution of `jobA` under `c1_cfg`. -/
def c1_job : _JenkinsJobConfig :=
  { name := "jobA", instance_name := "default", build := "build",
    poll_build_result_interval_second := 1, poll_build_result_counts := 2,
    parameters := none }

/-- An environment whose trigger response carries no `Location` header
(every later phase would succeed, but is never reached). -/
def c1_env : JobEnv :=
  { trigger := .response none,
    locate := fun _ => .ok { executable := { url := "http://jenkins.local/job/jobA/1/" } },
    live := fun _ => .ok { result := none },
    result := fun _ => .ok { result := some "SUCCESS" } }

def c1_envs : Nat → JobEnv := fun _ => c1_env

def c9_instA : JenkinsInstanceConfig :=
  { name := "a", url := "http://a.example", user := "u", password := "p", jobs := none }

def c9_instB : JenkinsInstanceConfig :=
  { name := "b", url := "http://b.example", user := "u", password := "p", jobs := none }

def c9_cfg : Config :=
  { jenkins := { build := some "build", poll_build_result_interval_second := some 1,
                 poll_build_result_counts := some 2, instances := [c9_instA, c9_instB] },
    file := { path := "jobs.txt" } }

/-- Job list naming `deploy` once under each instance. -/
def c9_lines : List String := ["deploy", "[b]", "deploy"]

def c9_job1 : _JenkinsJobConfig :=
  { name := "deploy", instance_name := "a", build := "build",
    poll_build_result_interval_second := 1, poll_build_result_counts := 2,
    parameters := none }

def c9_job2 : _JenkinsJobConfig :=
  { name := "deploy", instance_name := "b", build := "build",
    poll_build_result_interval_second := 1, poll_build_result_counts := 2,
    parameters := none }

/-- An environment under which every pipeline phase succeeds. -/
def c9_env : JobEnv :=
  { trigger := .response (some "http://a.example/queue/item/1/"),
    locate := fun _ => .ok { executable := { url := "http://a.example/job/deploy/1/" } },
    live := fun _ => .ok { result := none },
    result := fun _ => .ok { result := some "SUCCESS" } }

def c9_envs : Nat → JobEnv := fun _ => c9_env

/-- A configuration whose instance list is empty. -/
def c10_cfg : Config :=
  { jenkins := { build := some "build", poll_build_result_interval_second := some 1,
                 poll_build_result_counts := some 2, instances := [] },
    file := { path := "jobs.txt" } }

def c3_ja : _JenkinsJobConfig :=
  { name := "alpha", instance_name := "a", build := "build",
    poll_build_result_interval_second := 1, poll_build_result_counts := 2,
    parameters := none }

def c3_jb : _JenkinsJobConfig :=
  { name := "beta", instance_name := "b", build := "build",
    poll_build_result_interval_second := 1, poll_build_result_counts := 2,
    parameters := none }

def c4_jobs : List _JenkinsJobConfig := [c3_ja, c3_jb]

/-- Two completion events arriving in the reverse of the input order. -/
def c4_updates : List (Nat × String) := [(1, "SUCCESS"), (0, "FAILURE")]

def c5_job : _JenkinsJobConfig :=
  { name := "jobC", instance_name := "default", build := "build",
    poll_build_result_interval_second := 5, poll_build_result_counts := 2,
    parameters := none }

/-- A result endpoint that always reports a null result. -/
def c5_resp : Nat → GetResponse JenkinsResult := fun _ => .ok { result := none }

/-- A locate endpoint whose body never decodes. -/
def c6_resp : Nat → GetResponse JenkinsExecPage := fun _ => .decodeError "malformed"

def c7_jf : _JenkinsJobConfig :=
  { name := "fa", instance_name := "default", build := "build",
    poll_build_result_interval_second := 1, poll_build_result_counts := 2,
    parameters := none }

def c7_js : _JenkinsJobConfig :=
  { name := "fb", instance_name := "default", build := "build",
    poll_build_result_interval_second := 1, poll_build_result_counts := 2,
    parameters := none }

/-- Trigger response without a `Location` header. -/
def c7_fail_env : JobEnv :=
  { trigger := .response none,
    locate := fun _ => .ok { executable := { url := "http://jenkins.local/job/fa/1/" } },
    live := fun _ => .ok { result := none },
    result := fun _ => .ok { result := some "SUCCESS" } }

/-- Fully successful environment. -/
def c7_ok_env : JobEnv :=
  { trigger := .response (some "http://jenkins.local/queue/item/2/"),
    locate := fun _ => .ok { executable := { url := "http://jenkins.local/job/fb/1/" } },
    live := fun _ => .ok { result := none },
    result := fun _ => .ok { result := some "SUCCESS" } }

def c7_envs : Nat → JobEnv := fun n => if n = 0 then c7_fail_env else c7_ok_env

def c7_clients : List (String × JenkinsInstanceConfig) := [("default", c1_inst)]

theorem lookup_cons_bif {α : Type} (k a : String) (b : α) (l : List (String × α)) :
    List.lookup k ((a, b) :: l) = bif k == a then some b else List.lookup k l := by
  cases h : k == a <;> simp [List.lookup, h]

theorem lookup_filter_ne {α : Type} (k k' : String) (h : k' ≠ k) (m : List (String × α)) :
    (m.filter (fun p => p.1 != k)).lookup k' = m.lookup k' := by
  induction m with
  | nil => rfl
  | cons p rest ih =>
    obtain ⟨a, b⟩ := p
    by_cases hak : a = k
    · subst hak
      rw [List.filter_cons_of_neg (by simp), ih, lookup_cons_bif]
      have hk : (k' == a) = false := by simp [h]
      rw [hk, cond_false]
    · rw [List.filter_cons_of_pos (by simp [hak]), lookup_cons_bif, lookup_cons_bif, ih]

theorem build_tasks_go_lookup (k : String) (l : List _JenkinsJobConfig) :
    ∀ (i : Nat) (m : List (String × Nat)),
      (build_tasks_go m i l).lookup k =
        match last_index_from k i l with
        | some r => some r
        | none => m.lookup k := by
  induction l with
  | nil => intro i m; rfl
  | cons j rest ih =>
    intro i m
    rw [show build_tasks_go m i (j :: rest)
          = build_tasks_go (hm_insert m j.name i) (i + 1) rest from rfl]
    rw [ih]
    cases hres : last_index_from k (i + 1) rest with
    | some r => simp [last_index_from, hres]
    | none =>
      simp only [last_index_from, hres]
      by_cases hjk : j.name = k
      · rw [if_pos hjk]
        unfold hm_insert
        rw [lookup_cons_bif]
        have hb : (k == j.name) = true := by simp [hjk]
        rw [hb, cond_true]
      · rw [if_neg hjk]
        unfold hm_insert
        rw [lookup_cons_bif]
        have hkj : k ≠ j.name := Ne.symm hjk
        have hb : (k == j.name) = false := by simp [hkj]
        rw [hb, cond_false]
        exact lookup_filter_ne j.name k hkj m

theorem last_index_from_not_mem (k : String) (jobs : List _JenkinsJobConfig) :
    ∀ i, k ∉ jobs.map _JenkinsJobConfig.name → last_index_from k i jobs = none := by
  induction jobs with
  | nil => intro i _; rfl
  | cons j rest ih =>
    intro i hk
    rw [List.map_cons, List.mem_cons] at hk
    push_neg at hk
    simp only [last_index_from, ih (i + 1) hk.2]
    rw [if_neg (fun hh => hk.1 hh.symm)]

theorem last_index_from_of_nodup (job : _JenkinsJobConfig) (jobs : List _JenkinsJobConfig) :
    ∀ (idx i : Nat), jobs[idx]? = some job → (jobs.map _JenkinsJobConfig.name).Nodup →
      last_index_from job.name i jobs = some (i + idx) := by
  induction jobs with
  | nil => intro idx i h _; simp at h
  | cons j rest ih =>
    intro idx i hget hnod
    rw [List.map_cons, List.nodup_cons] at hnod
    cases idx with
    | zero =>
      have hj : j = job := by simpa using hget
      subst hj
      simp only [last_index_from]
      rw [last_index_from_not_mem j.name rest (i + 1) hnod.1]
      simp
    | succ n =>
      have hget' : rest[n]? = some job := by simpa using hget
      simp only [last_index_from]
      rw [ih n (i + 1) hget' hnod.2]
      show some (i + 1 + n) = some (i + (n + 1))
      congr 1
      omega

theorem last_index_from_isSome (k : String) (jobs : List _JenkinsJobConfig) :
    ∀ i, k ∈ jobs.map _JenkinsJobConfig.name → (last_index_from k i jobs).isSome = true := by
  induction jobs with
  | nil => intro i h; simp at h
  | cons j rest ih =>
    intro i hk
    rw [List.map_cons, List.mem_cons] at hk
    simp only [last_index_from]
    cases hres : last_index_from k (i + 1) rest with
    | some r => rfl
    | none =>
      rcases hk with hk | hk
      · rw [if_pos hk.symm]; rfl
      · have := ih (i + 1) hk
        rw [hres] at this
        simp at this

theorem collect_go_ne_err (tr : Nat → Except JErr String) :
    ∀ (events : List (Nat × String)) (tasks : List (String × Nat)) (slots : List String) (e : JErr),
      collect_go tr events tasks slots ≠ Except.error (Failure.err e) := by
  intro events
  induction events with
  | nil => intro tasks slots e h; simp [collect_go] at h
  | cons p rest ih =>
    intro tasks slots e
    obtain ⟨idx, key⟩ := p
    simp only [collect_go]
    cases hl : tasks.lookup key with
    | none => simp
    | some t => exact ih _ _ _

theorem collect_go_ok (tr : Nat → Except JErr String) :
    ∀ (events : List (Nat × String)) (tasks : List (String × Nat)) (slots : List String),
      (∀ p ∈ events, (tasks.lookup p.2).isSome = true) →
      (events.map Prod.snd).Nodup →
      ∃ s, collect_go tr events tasks slots = Except.ok s := by
  intro events
  induction events with
  | nil => intro tasks slots _ _; exact ⟨slots, rfl⟩
  | cons p rest ih =>
    intro tasks slots hmem hnod
    obtain ⟨idx, key⟩ := p
    rw [List.map_cons, List.nodup_cons] at hnod
    have hk := hmem (idx, key) (List.mem_cons_self _ _)
    cases hl : tasks.lookup key with
    | none => rw [hl] at hk; simp at hk
    | some t =>
      simp only [collect_go, hl]
      apply ih
      · intro q hq
        have hqk : q.2 ≠ key := by
          intro heq
          have hq2 : q.2 ∈ rest.map Prod.snd := List.mem_map_of_mem Prod.snd hq
          rw [heq] at hq2
          exact hnod.1 hq2
        unfold hm_remove
        rw [lookup_filter_ne key q.2 hqk tasks]
        exact hmem q (List.mem_cons_of_mem _ hq)
      · exact hnod.2

theorem spawn_keys_sublist (clients : List (String × JenkinsInstanceConfig)) (envs : Nat → JobEnv) :
    ∀ (jobs : List _JenkinsJobConfig) (i : Nat),
      List.Sublist ((spawn_events_go clients envs i jobs).map Prod.snd)
        (jobs.map _JenkinsJobConfig.name) := by
  intro jobs
  induction jobs with
  | nil => intro i; exact List.Sublist.slnil
  | cons j rest ih =>
    intro i
    cases h : run_task (clients.lookup j.instance_name) (envs i) j with
    | ok v =>
      rw [show spawn_events_go clients envs i (j :: rest)
            = completion_event i j :: spawn_events_go clients envs (i + 1) rest from by
        simp [spawn_events_go, h]]
      exact List.Sublist.cons₂ _ (ih (i + 1))
    | error e =>
      rw [show spawn_events_go clients envs i (j :: rest)
            = spawn_events_go clients envs (i + 1) rest from by
        simp [spawn_events_go, h]]
      exact List.Sublist.cons _ (ih (i + 1))

theorem config_validate_ok (c : Config) : c.validate = Except.ok () := by
  unfold Config.validate
  generalize c.jenkins.instances = l
  induction l with
  | nil => rfl
  | cons a l ih => rw [show validate_instances (a :: l) = validate_instances l from rfl, ih]

theorem get_job_status_go_timeout {T : Type} (responses : Nat → GetResponse T) :
    ∀ (remaining i rounds slept : Nat),
      (∀ k, i ≤ k → k < i + remaining → ∃ m, responses k = .decodeError m) →
      get_job_status_go responses remaining i rounds slept =
        (Except.error (JErr.TimeoutError "Failed to get necessary field"),
         rounds + remaining, slept + 3 * remaining) := by
  intro remaining
  induction remaining with
  | zero => intro i rounds slept _; simp [get_job_status_go]
  | succ r ih =>
    intro i rounds slept h
    obtain ⟨m, hm⟩ := h i (le_refl i) (by omega)
    simp only [get_job_status_go, hm]
    rw [ih (i + 1) (rounds + 1) (slept + 3) (fun k hk1 hk2 => h k (by omega) (by omega))]
    have h1 : rounds + 1 + r = rounds + (r + 1) := by omega
    have h2 : slept + 3 + 3 * r = slept + 3 * (r + 1) := by ring
    rw [h1, h2]

theorem get_job_status_go_first_ok {T : Type} (responses : Nat → GetResponse T) (v : T) :
    ∀ (remaining i rounds slept k : Nat), i ≤ k → k < i + remaining →
      responses k = .ok v →
      (∀ j, i ≤ j → j < k → ∃ m, responses j = .decodeError m) →
      get_job_status_go responses remaining i rounds slept =
        (Except.ok v, rounds + (k - i) + 1, slept + 3 * ((k - i) + 1)) := by
  intro remaining
  induction remaining with
  | zero => intro i rounds slept k h1 h2 _ _; exact absurd h2 (by omega)
  | succ r ih =>
    intro i rounds slept k h1 h2 hok hprev
    by_cases hik : k = i
    · subst hik
      simp only [get_job_status_go, hok]
      have e1 : rounds + 1 = rounds + (k - k) + 1 := by omega
      have e2 : slept + 3 = slept + 3 * ((k - k) + 1) := by
        have : k - k = 0 := by omega
        rw [this]
      rw [e1, e2]
    · have hik' : i < k := lt_of_le_of_ne h1 (Ne.symm hik)
      obtain ⟨m, hm⟩ := hprev i (le_refl i) hik'
      simp only [get_job_status_go, hm]
      rw [ih (i + 1) (rounds + 1) (slept + 3) k (by omega) (by omega) hok
        (fun j hj1 hj2 => hprev j (by omega) hj2)]
      have e1 : rounds + 1 + (k - (i + 1)) + 1 = rounds + (k - i) + 1 := by omega
      have e2 : slept + 3 + 3 * (k - (i + 1) + 1) = slept + 3 * (k - i + 1) := by
        have h3 : k - (i + 1) + 1 = k - i := by omega
        rw [h3]
        ring
      rw [e1, e2]

theorem get_job_result_go_timeout (interval : Nat) (responses : Nat → GetResponse JenkinsResult) :
    ∀ (remaining i rounds slept : Nat),
      (∀ k, i ≤ k → k < i + remaining → responses k = .ok { result := none }) →
      get_job_result_go interval responses remaining i rounds slept =
        (Except.error (JErr.TimeoutError "Getting building result timeout"),
         rounds + remaining, slept + interval * remaining) := by
  intro remaining
  induction remaining with
  | zero => intro i rounds slept _; simp [get_job_result_go]
  | succ r ih =>
    intro i rounds slept h
    have hm := h i (le_refl i) (by omega)
    simp only [get_job_result_go, hm]
    rw [ih (i + 1) (rounds + 1) (slept + interval) (fun k hk1 hk2 => h k (by omega) (by omega))]
    have h1 : rounds + 1 + r = rounds + (r + 1) := by omega
    have h2 : slept + interval + interval * r = slept + interval * (r + 1) := by ring
    rw [h1, h2]

theorem get_job_result_go_first_some (interval : Nat) (responses : Nat → GetResponse JenkinsResult) (s : String) :
    ∀ (remaining i rounds slept k : Nat), i ≤ k → k < i + remaining →
      responses k = .ok { result := some s } →
      (∀ j, i ≤ j → j < k → responses j = .ok { result := none }) →
      get_job_result_go interval responses remaining i rounds slept =
        (Except.ok s, rounds + (k - i) + 1, slept + interval * ((k - i) + 1)) := by
  intro remaining
  induction remaining with
  | zero => intro i rounds slept k h1 h2 _ _; exact absurd h2 (by omega)
  | succ r ih =>
    intro i rounds slept k h1 h2 hok hprev
    by_cases hik : k = i
    · subst hik
      simp only [get_job_result_go, hok]
      have e1 : rounds + 1 = rounds + (k - k) + 1 := by omega
      have e2 : slept + interval = slept + interval * ((k - k) + 1) := by
        have : k - k = 0 := by omega
        rw [this]
        ring
      rw [e1, e2]
    · have hik' : i < k := lt_of_le_of_ne h1 (Ne.symm hik)
      have hm := hprev i (le_refl i) hik'
      simp only [get_job_result_go, hm]
      rw [ih (i + 1) (rounds + 1) (slept + interval) k (by omega) (by omega) hok
        (fun j hj1 hj2 => hprev j (by omega) hj2)]
      have e1 : rounds + 1 + (k - (i + 1)) + 1 = rounds + (k - i) + 1 := by omega
      have e2 : slept + interval + interval * (k - (i + 1) + 1) = slept + interval * (k - i + 1) := by
        have h3 : k - (i + 1) + 1 = k - i := by omega
        rw [h3]
        ring
      rw [e1, e2]

theorem apply_prints_length : ∀ (us : List (Nat × String)) (v : List String),
    (apply_prints v us).length = v.length := by
  intro us
  induction us with
  | nil => intro v; rfl
  | cons u rest ih =>
    intro v
    rw [show apply_prints v (u :: rest) = apply_prints (v.set u.1 u.2) rest from rfl]
    rw [ih, List.length_set]

theorem apply_prints_getElem? : ∀ (us : List (Nat × String)) (v : List String) (i : Nat),
    i < v.length →
    (apply_prints v us)[i]? =
      match last_write i us with
      | some r => some r
      | none => v[i]? := by
  intro us
  induction us with
  | nil => intro v i _; rfl
  | cons u rest ih =>
    intro v i hi
    rw [show apply_prints v (u :: rest) = apply_prints (v.set u.1 u.2) rest from rfl]
    rw [ih (v.set u.1 u.2) i (by rw [List.length_set]; exact hi)]
    cases hlw : last_write i rest with
    | some r => simp [last_write, hlw]
    | none =>
      simp only [last_write, hlw]
      by_cases hui : u.1 = i
      · subst hui
        rw [if_pos rfl, List.getElem?_set_eq_of_lt u.2 hi]
      · rw [if_neg hui, List.getElem?_set_ne hui]

/-- C1: the spec claims every per-job error (NetworkError, ProtocolError,
TimeoutError) is caught at the unit boundary and shown as that job's
outcome in the status table.  The code violates this: `tx.send` runs only
after every fallible step, so a failing task (here a ProtocolError from a
trigger response without a `Location` header) never delivers a completion
event; the consumer never prints its error and the final table keeps the
pending placeholder in that job's line. -/
theorem c1_job_error_never_displayed :
    get_all_jobs c1_cfg c1_lines = Except.ok [c1_job] ∧
    failsWith JErr.isProtocol
      (run_task ((get_jenkins_clients c1_cfg).lookup c1_job.instance_name) (c1_envs 0) c1_job) = true ∧
    spawn_events (get_jenkins_clients c1_cfg) c1_envs [c1_job] = [] ∧
    exec_model c1_cfg c1_lines c1_envs
      (spawn_events (get_jenkins_clients c1_cfg) c1_envs [c1_job]) =
      Except.ok ["jobA -> 发布中"] := by
  refine ⟨?_, ?_, ?_, ?_⟩ <;> rfl

/-- C2 counterexample: a concrete configuration where the job entry
defines no `build` override while the global layer does.  The effective
value comes from the global layer; the owning instance defines no
instance-level value at all (the configuration format has no such field),
so the claimed job → instance → global three-layer fallback is falsified:
the effective parameter is not an instance-level value. -/
theorem c2_no_instance_layer :
    c2_entry.build = none ∧
    c2_entry.get_build c2_cfg = Except.ok "global-build" ∧
    c2_inst.instance_build = none ∧
    ¬ ∃ v, c2_inst.instance_build = some v ∧ c2_entry.get_build c2_cfg = Except.ok v := by
  refine ⟨rfl, rfl, rfl, ?_⟩
  rintro ⟨v, hv, -⟩
  simp [JenkinsInstanceConfig.instance_build] at hv

/-- C2 (amended): required parameter resolution falls back through two
layers in priority order — the job entry's override, else the global
value — and fails with a configuration error when a required field is
absent at both (the configuration format defines no instance-level
defaults for these fields); a job without an entry resolves from the
global layer alone; and a failed resolution aborts `exec` before any task
is spawned or any completion event consumed. -/
theorem c2_two_layer_resolution (jb g_build : Option String) (ji jc g_int g_cnt : Option Nat)
    (ps : Option (List (String × String))) (cfg' : Config) (lines' : List String)
    (envs' : Nat → JobEnv) (arr' : List (Nat × String)) (f : Failure)
    (hfail : get_all_jobs cfg' lines' = Except.error f) :
    get_job_config (c2_mk_cfg g_build g_int g_cnt ⟨jb, ji, jc, ps⟩) "j" "default" =
      c2_two_layer jb ji jc ps g_build g_int g_cnt ∧
    get_job_config (c2_mk_cfg g_build g_int g_cnt ⟨jb, ji, jc, ps⟩) "k" "default" =
      c2_global_only g_build g_int g_cnt ∧
    exec_model cfg' lines' envs' arr' = Except.error f := by
  refine ⟨?_, ?_, ?_⟩
  · cases jb <;> cases g_build <;> cases ji <;> cases g_int <;> cases jc <;> cases g_cnt <;> rfl
  · cases g_build <;> cases g_cnt <;> cases g_int <;> rfl
  · simp only [exec_model, config_validate_ok, hfail]

/-- Witness for C2: concrete layer values — the job override wins for
`build`, the global layer fills the remaining fields, and a globally
empty configuration aborts the run with the configuration error. -/
theorem c2_two_layer_resolution_witness :
    get_job_config (c2_mk_cfg (some "gb") (some 3) (some 4) ⟨some "ob", none, none, none⟩) "j" "default" =
      c2_two_layer (some "ob") none none none (some "gb") (some 3) (some 4) ∧
    get_job_config (c2_mk_cfg (some "gb") (some 3) (some 4) ⟨some "ob", none, none, none⟩) "k" "default" =
      c2_global_only (some "gb") (some 3) (some 4) ∧
    exec_model c2_badcfg ["j"] c1_envs [] =
      Except.error (Failure.err (JErr.ConfigErr "Missing job or global `build` configuration")) :=
  c2_two_layer_resolution (some "ob") (some "gb") none none (some 3) (some 4) none
    c2_badcfg ["j"] c1_envs [] _ rfl

/-- C3 counterexample: the completion event pairs the original index with
the job NAME only.  Two jobs with the same name on different instances
yield events with identical identities, and the consumer's name-keyed map
resolves the first job's event to the second task — not the task that
produced it. -/
theorem c3_event_identity_not_instance_qualified :
    (completion_event 0 c9_job1).2 = (completion_event 1 c9_job2).2 ∧
    c9_job1.instance_name ≠ c9_job2.instance_name ∧
    (build_tasks_map [c9_job1, c9_job2]).lookup (completion_event 0 c9_job1).2 = some 1 := by
  refine ⟨rfl, ?_, rfl⟩
  decide

/-- C3 (amended): the completion event carries (original index, job name)
— a name-only identity, not instance-qualified — and the consumer's
removal from the name-keyed task map resolves each event to exactly the
task that produced it provided job names are unique across the run. -/
theorem c3_event_resolves_by_unique_name (jobs : List _JenkinsJobConfig) (idx : Nat)
    (job : _JenkinsJobConfig)
    (hnodup : (jobs.map _JenkinsJobConfig.name).Nodup)
    (hidx : jobs[idx]? = some job) :
    completion_event idx job = (idx, job.name) ∧
    (build_tasks_map jobs).lookup (completion_event idx job).2 = some idx := by
  refine ⟨rfl, ?_⟩
  rw [show (completion_event idx job).2 = job.name from rfl]
  rw [show build_tasks_map jobs = build_tasks_go [] 0 jobs from rfl]
  rw [build_tasks_go_lookup]
  rw [last_index_from_of_nodup job jobs idx 0 hidx hnodup]
  simp

/-- Witness for C3 at two distinctly-named jobs. -/
theorem c3_event_resolves_by_unique_name_witness :
    completion_event 1 c3_jb = (1, c3_jb.name) ∧
    (build_tasks_map [c3_ja, c3_jb]).lookup (completion_event 1 c3_jb).2 = some 1 :=
  c3_event_resolves_by_unique_name [c3_ja, c3_jb] 1 c3_jb (by decide) (by decide)

/-- C4: after any sequence of completion prints, the repaint has exactly
one line per job, in original job-list order: the line at position `i`
belongs to the `i`-th input job and shows the last outcome printed into
slot `i` (or the pending placeholder when none was). -/
theorem c4_renderer_preserves_order (jobs : List _JenkinsJobConfig)
    (updates : List (Nat × String)) (i : Nat) (job : _JenkinsJobConfig)
    (hj : jobs[i]? = some job) :
    (render_lines jobs (apply_prints (List.replicate jobs.length "") updates)).length = jobs.length ∧
    (render_lines jobs (apply_prints (List.replicate jobs.length "") updates))[i]? =
      some (fmt_line job ((last_write i updates).getD "")) := by
  have hi : i < jobs.length := by
    obtain ⟨hh, -⟩ := List.getElem?_eq_some.mp hj
    exact hh
  have hg : jobs.get? i = some job := by rw [List.get?_eq_getElem?]; exact hj
  constructor
  · unfold render_lines
    rw [List.length_map, List.enum_length, apply_prints_length, List.length_replicate]
  · unfold render_lines
    rw [List.getElem?_map, List.getElem?_enum]
    rw [apply_prints_getElem? updates _ i (by rw [List.length_replicate]; exact hi)]
    cases hlw : last_write i updates with
    | some r => simp [hg, hj]
    | none =>
      rw [List.getElem?_replicate_of_lt hi]
      simp [hg, hj]

/-- Witness for C4: two jobs with completion events arriving in reverse
order; the table still lists the jobs in input order. -/
theorem c4_renderer_preserves_order_witness :
    (render_lines c4_jobs (apply_prints (List.replicate c4_jobs.length "") c4_updates)).length = c4_jobs.length ∧
    (render_lines c4_jobs (apply_prints (List.replicate c4_jobs.length "") c4_updates))[0]? =
      some (fmt_line c3_ja ((last_write 0 c4_updates).getD "")) :=
  c4_renderer_preserves_order c4_jobs c4_updates 0 c3_ja rfl

/-- C9: two jobs with the same name on different instances overwrite each
other in the name-keyed task map.  Both tasks succeed and send their
events; the first event resolves to the LAST-inserted task's handle
(index 1, not the producing task 0), and the second event's removal finds
nothing, so the `unwrap` panics — end to end from the configuration and
job-list file through `exec`. -/
theorem c9_duplicate_name_panics :
    get_all_jobs c9_cfg c9_lines = Except.ok [c9_job1, c9_job2] ∧
    c9_job1.name = c9_job2.name ∧
    c9_job1.instance_name ≠ c9_job2.instance_name ∧
    spawn_events (get_jenkins_clients c9_cfg) c9_envs [c9_job1, c9_job2] =
      [(0, "deploy"), (1, "deploy")] ∧
    (build_tasks_map [c9_job1, c9_job2]).lookup "deploy" = some 1 ∧
    exec_model c9_cfg c9_lines c9_envs [(0, "deploy"), (1, "deploy")] =
      Except.error (Failure.panic "called Option.unwrap on a None value") := by
  refine ⟨rfl, rfl, ?_, rfl, rfl, rfl⟩
  decide

/-- C10: with an empty configured instance list, job resolution reads
`instances[0]` unconditionally to establish the default instance and
panics with an out-of-bounds index — for every job-list input — instead
of returning a configuration error; the process dies by panic (exit 101),
not through the error exit path. -/
theorem c10_empty_instances_panics (cfg : Config) (lines : List String)
    (envs : Nat → JobEnv) (arrival : List (Nat × String))
    (h : cfg.jenkins.instances = []) :
    get_all_jobs cfg lines =
      Except.error (Failure.panic "index out of bounds: the len is 0 but the index is 0") ∧
    exec_model cfg lines envs arrival =
      Except.error (Failure.panic "index out of bounds: the len is 0 but the index is 0") ∧
    main_exit_code cfg lines envs arrival = 101 := by
  have hga : get_all_jobs cfg lines =
      Except.error (Failure.panic "index out of bounds: the len is 0 but the index is 0") := by
    unfold get_all_jobs
    rw [h]
    rfl
  refine ⟨hga, ?_, ?_⟩
  · simp only [exec_model, config_validate_ok, hga]
  · simp only [main_exit_code, exec_model, config_validate_ok, hga]

/-- Witness for C10 at a concrete empty-instances configuration and a
nonempty job list. -/
theorem c10_empty_instances_panics_witness :
    get_all_jobs c10_cfg ["jobA"] =
      Except.error (Failure.panic "index out of bounds: the len is 0 but the index is 0") ∧
    exec_model c10_cfg ["jobA"] c1_envs [] =
      Except.error (Failure.panic "index out of bounds: the len is 0 but the index is 0") ∧
    main_exit_code c10_cfg ["jobA"] c1_envs [] = 101 :=
  c10_empty_instances_panics c10_cfg ["jobA"] c1_envs [] rfl

theorem main_exit_code_one_iff (cfg : Config) (lines : List String) (envs : Nat → JobEnv)
    (arrival : List (Nat × String)) :
    main_exit_code cfg lines envs arrival = 1 ↔
      ∃ e, get_all_jobs cfg lines = Except.error (Failure.err e) := by
  cases hga : get_all_jobs cfg lines with
  | error f =>
    cases f with
    | err e =>
      simp only [main_exit_code, exec_model, config_validate_ok, hga]
      simp
    | panic m =>
      simp only [main_exit_code, exec_model, config_validate_ok, hga]
      constructor
      · intro h; exact absurd h (by decide)
      · rintro ⟨e', he'⟩; simp at he'
  | ok jobs =>
    cases hc : collect_go (task_result_fn (get_jenkins_clients cfg) envs jobs) arrival
        (build_tasks_map jobs) (List.replicate jobs.length "") with
    | ok slots =>
      simp only [main_exit_code, exec_model, config_validate_ok, hga, hc]
      constructor
      · intro h; exact absurd h (by decide)
      · rintro ⟨e', he'⟩; simp at he'
    | error f =>
      cases f with
      | panic m =>
        simp only [main_exit_code, exec_model, config_validate_ok, hga, hc]
        constructor
        · intro h; exact absurd h (by decide)
        · rintro ⟨e', he'⟩; simp at he'
      | err e => exact absurd hc (collect_go_ne_err _ _ _ _ e)

/-- C5: the result poll returns the first non-null result immediately —
after k+1 sleep+GET rounds when it first appears at round k — and when
every round observes a null result it fails with the TimeoutError after
exactly the job's configured attempt count of rounds, each preceded by
one configured-interval sleep (counts rounds, counts × interval seconds
slept): not before, and not after. -/
theorem c5_result_poll_timeout_boundary (job : _JenkinsJobConfig)
    (responses : Nat → GetResponse JenkinsResult) :
    ((∀ k, k < job.poll_build_result_counts → responses k = GetResponse.ok { result := none }) →
      get_job_result job responses =
        (Except.error (JErr.TimeoutError "Getting building result timeout"),
         job.poll_build_result_counts,
         job.poll_build_result_counts * job.poll_build_result_interval_second)) ∧
    (∀ k s, k < job.poll_build_result_counts →
      (∀ j, j < k → responses j = GetResponse.ok { result := none }) →
      responses k = GetResponse.ok { result := some s } →
      get_job_result job responses =
        (Except.ok s, k + 1, (k + 1) * job.poll_build_result_interval_second)) := by
  constructor
  · intro h
    unfold get_job_result
    rw [get_job_result_go_timeout job.poll_build_result_interval_second responses
      job.poll_build_result_counts 0 0 0 (fun k _ hk2 => h k (by omega))]
    have e1 : (0 : Nat) + job.poll_build_result_counts = job.poll_build_result_counts := by omega
    have e2 : (0 : Nat) + job.poll_build_result_interval_second * job.poll_build_result_counts
        = job.poll_build_result_counts * job.poll_build_result_interval_second := by ring
    rw [e1, e2]
  · intro k s hk hprev hok
    unfold get_job_result
    rw [get_job_result_go_first_some job.poll_build_result_interval_second responses s
      job.poll_build_result_counts 0 0 0 k (by omega) (by omega) hok
      (fun j _ hj2 => hprev j hj2)]
    have e1 : (0 : Nat) + (k - 0) + 1 = k + 1 := by omega
    have e2 : (0 : Nat) + job.poll_build_result_interval_second * ((k - 0) + 1)
        = (k + 1) * job.poll_build_result_interval_second := by
      have h0 : k - 0 = k := rfl
      rw [h0]
      ring
    rw [e1, e2]

/-- Witness for C5: two configured attempts at interval 5 over an
always-null result endpoint time out after exactly 2 rounds and 10
seconds slept. -/
theorem c5_result_poll_timeout_boundary_witness :
    (∀ k, k < c5_job.poll_build_result_counts → c5_resp k = GetResponse.ok { result := none }) ∧
    get_job_result c5_job c5_resp =
      (Except.error (JErr.TimeoutError "Getting building result timeout"), 2, 10) :=
  ⟨fun _ _ => rfl, (c5_result_poll_timeout_boundary c5_job c5_resp).1 (fun _ _ => rfl)⟩

/-- C6: the generic locate poll sleeps a fixed 3 seconds before every
GET, retries on decode failure up to a fixed cap of 30 attempts (both
literals in `get_job_status`, not read from any job configuration),
returns the decoded value on the first successful decode, and fails with
the TimeoutError after the cap: 30 rounds, 90 seconds slept in total. -/
theorem c6_locate_poll_fixed_constants {T : Type} (responses : Nat → GetResponse T) :
    ((∀ k, k < 30 → ∃ m, responses k = GetResponse.decodeError m) →
      get_job_status responses =
        (Except.error (JErr.TimeoutError "Failed to get necessary field"), 30, 90)) ∧
    (∀ k v, k < 30 → responses k = GetResponse.ok v →
      (∀ j, j < k → ∃ m, responses j = GetResponse.decodeError m) →
      get_job_status responses = (Except.ok v, k + 1, 3 * (k + 1))) := by
  constructor
  · intro h
    unfold get_job_status
    rw [get_job_status_go_timeout responses 30 0 0 0 (fun k _ hk2 => h k (by omega))]
  · intro k v hk hok hprev
    unfold get_job_status
    rw [get_job_status_go_first_ok responses v 30 0 0 0 k (by omega) (by omega) hok
      (fun j _ hj2 => hprev j hj2)]
    have e1 : (0 : Nat) + (k - 0) + 1 = k + 1 := by omega
    have e2 : (0 : Nat) + 3 * ((k - 0) + 1) = 3 * (k + 1) := by omega
    rw [e1, e2]

/-- Witness for C6: an endpoint that never decodes times out after
exactly 30 rounds and 90 seconds. -/
theorem c6_locate_poll_fixed_constants_witness :
    (∀ k, k < 30 → ∃ m, c6_resp k = GetResponse.decodeError m) ∧
    get_job_status c6_resp =
      (Except.error (JErr.TimeoutError "Failed to get necessary field"), 30, 90) :=
  ⟨fun _ _ => ⟨"malformed", rfl⟩,
    (c6_locate_poll_fixed_constants c6_resp).1 (fun _ _ => ⟨"malformed", rfl⟩)⟩

/-- C7: a trigger response without a `Location` header fails that job
with a ProtocolError, while a sibling job with a valid header runs its
own pipeline to completion unaffected: the sibling's event is the only
one emitted, and the consumer stores the sibling's outcome in the
sibling's slot (the failing job emits no event — cf. C1 — and its slot
keeps the pending placeholder). -/
theorem c7_missing_location_isolated (jkf : JenkinsInstanceConfig)
    (clients : List (String × JenkinsInstanceConfig))
    (jf js : _JenkinsJobConfig) (envs : Nat → JobEnv) (s : String)
    (hcf : clients.lookup jf.instance_name = some jkf)
    (hname : jf.name ≠ js.name)
    (htrig : (envs 0).trigger = TriggerResponse.response none)
    (hsib : run_task (clients.lookup js.instance_name) (envs 1) js = Except.ok s) :
    failsWith JErr.isProtocol (run_task (clients.lookup jf.instance_name) (envs 0) jf) = true ∧
    spawn_events clients envs [jf, js] = [(1, js.name)] ∧
    collect_go (task_result_fn clients envs [jf, js]) (spawn_events clients envs [jf, js])
      (build_tasks_map [jf, js]) (List.replicate 2 "") = Except.ok ["", s] := by
  have hfail : run_task (clients.lookup jf.instance_name) (envs 0) jf =
      Except.error (JErr.ProtocolError
        ("Failed to get Location in header that respond from posting to "
          ++ (jkf.url ++ "/job/" ++ jf.name ++ "/" ++ jf.build))) := by
    rw [hcf]
    unfold run_task job_build
    rw [htrig]
  have hspawn : spawn_events clients envs [jf, js] = [(1, js.name)] := by
    simp only [spawn_events, spawn_events_go, hfail, hsib, completion_event]
  have hb : ((jf.name, 0) : String × Nat).1 != js.name := bne_iff_ne.mpr hname
  have hmap : build_tasks_map [jf, js] = [(js.name, 1), (jf.name, 0)] := by
    simp only [build_tasks_map, build_tasks_go, hm_insert, List.filter_nil,
      List.filter_cons, hb, ite_true]
  have hlk : List.lookup js.name [(js.name, 1), (jf.name, 0)] = some 1 := by
    rw [lookup_cons_bif, beq_self_eq_true, cond_true]
  have htr : task_result_fn clients envs [jf, js] 1 = Except.ok s := hsib
  refine ⟨by rw [hfail]; rfl, hspawn, ?_⟩
  rw [hspawn, hmap]
  simp only [collect_go, hlk, htr]
  rfl

/-- Witness for C7: a concrete pair of sibling jobs on the same instance
where the first job's trigger response lacks the `Location` header. -/
theorem c7_missing_location_isolated_witness :
    failsWith JErr.isProtocol (run_task (c7_clients.lookup c7_jf.instance_name) (c7_envs 0) c7_jf) = true ∧
    spawn_events c7_clients c7_envs [c7_jf, c7_js] = [(1, c7_js.name)] ∧
    collect_go (task_result_fn c7_clients c7_envs [c7_jf, c7_js])
      (spawn_events c7_clients c7_envs [c7_jf, c7_js])
      (build_tasks_map [c7_jf, c7_js]) (List.replicate 2 "") = Except.ok ["", "SUCCESS"] :=
  c7_missing_location_isolated c1_inst c7_clients c7_jf c7_js c7_envs "SUCCESS"
    rfl (by decide) rfl rfl

/-- C8: a run that completes normally exits 0 — in particular a run in
which individual jobs failed (failing jobs emit no completion events; the
consumer drains what arrives and `exec` returns `Ok`) — and the
returned-error exit code 1 arises exactly when the startup/configuration
stage (`get_all_jobs`) fails before any job is spawned. -/
theorem c8_exit_codes (cfg cfg' : Config) (lines lines' : List String)
    (envs envs' : Nat → JobEnv) (arrival arr' : List (Nat × String))
    (jobs : List _JenkinsJobConfig)
    (hjobs : get_all_jobs cfg lines = Except.ok jobs)
    (hnodup : (jobs.map _JenkinsJobConfig.name).Nodup)
    (hperm : arrival.Perm (spawn_events (get_jenkins_clients cfg) envs jobs)) :
    main_exit_code cfg lines envs arrival = 0 ∧
    (main_exit_code cfg' lines' envs' arr' = 1 ↔
      ∃ e, get_all_jobs cfg' lines' = Except.error (Failure.err e)) := by
  constructor
  · have hkeys_sub : List.Sublist
        ((spawn_events (get_jenkins_clients cfg) envs jobs).map Prod.snd)
        (jobs.map _JenkinsJobConfig.name) := spawn_keys_sublist _ _ jobs 0
    have hspawn_nodup : ((spawn_events (get_jenkins_clients cfg) envs jobs).map Prod.snd).Nodup :=
      hnodup.sublist hkeys_sub
    have harr_nodup : (arrival.map Prod.snd).Nodup :=
      ((hperm.map Prod.snd).nodup_iff).mpr hspawn_nodup
    have hmem : ∀ p ∈ arrival, ((build_tasks_map jobs).lookup p.2).isSome = true := by
      intro p hp
      have hp2 : p.2 ∈ jobs.map _JenkinsJobConfig.name :=
        hkeys_sub.mem (List.mem_map_of_mem Prod.snd (hperm.mem_iff.mp hp))
      have hsome := last_index_from_isSome p.2 jobs 0 hp2
      rw [show build_tasks_map jobs = build_tasks_go [] 0 jobs from rfl, build_tasks_go_lookup]
      cases hli : last_index_from p.2 0 jobs with
      | some r => rfl
      | none => rw [hli] at hsome; simp at hsome
    obtain ⟨s, hs⟩ := collect_go_ok (task_result_fn (get_jenkins_clients cfg) envs jobs)
      arrival (build_tasks_map jobs) (List.replicate jobs.length "") hmem harr_nodup
    simp only [main_exit_code, exec_model, config_validate_ok, hjobs, hs]
  · exact main_exit_code_one_iff cfg' lines' envs' arr'

/-- Witness for C8: the run's only job fails (no `Location` header) yet
the process exits 0; a configuration that resolves nothing exits 1,
matching the configuration-failure characterisation. -/
theorem c8_exit_codes_witness :
    main_exit_code c1_cfg c1_lines c1_envs [] = 0 ∧
    (main_exit_code c2_badcfg ["j"] c1_envs [] = 1 ↔
      ∃ e, get_all_jobs c2_badcfg ["j"] = Except.error (Failure.err e)) :=
  c8_exit_codes c1_cfg c2_badcfg c1_lines ["j"] c1_envs c1_envs [] [] [c1_job]
    rfl (by decide) (by decide)
